import Mathlib

/-!
Shallow embedding of the reconciliation-and-mapping subsystem of the
odoo-data-migration repository (src/app/migration).  Python dicts are
embedded as association lists, the file system as an association list
from file name to the list of lines, and Python exceptions as an
Except value.  Each definition mirrors one Python function of the
source tree; the source file and symbol are named in its doc comment.
-/

/-- Python exceptions that the modelled code can raise.  ResourceNotFound and
HandlerNotFound come from handlers/base.py; fileNotFound models the built-in
FileNotFoundError, valueError the built-in ValueError, and attributeError the
built-in AttributeError. -/
inductive PyErr where
  | resourceNotFound (msg : String)
  | handlerNotFound (msg : String)
  | fileNotFound (name : String)
  | valueError (msg : String)
  | attributeError (msg : String)
deriving DecidableEq

/-- Field values appearing in the record dicts built by the handlers:
strings and integers. -/
inductive FVal where
  | str (s : String)
  | num (n : Int)
deriving DecidableEq

/-- A record dict as built by apply_transformations: field name to value. -/
abbrev FData := List (String × FVal)

/-- Sets one key of a record dict, replacing an existing entry in place and
appending a fresh key at the end, like assignment into a Python dict. -/
def setField (d : FData) (k : String) (v : FVal) : FData :=
  if (d.lookup k).isSome then
    d.map (fun e => if e.1 == k then (k, v) else e)
  else
    d ++ [(k, v)]

/-- Applies every entry of the second dict onto the first, like passing a
values dict to an Odoo write call. -/
def mergeFields (old new : FData) : FData :=
  new.foldl (fun acc e => setField acc e.1 e.2) old

/-- One mapping table: source id to destination id (a Python dict in
core/mapping.py, embedded as an association list in insertion order). -/
abbrev MapTable := List (Int × Int)

/-- The cache field of MappingProvider and MappingLoader: model name to
mapping table. -/
abbrev MapCache := List (String × MapTable)

/-- The durable mapping directory: file name to the list of lines. -/
abbrev FS := List (String × List String)

/-- Reads a file: some lines when the file exists, none when it is missing
(os.path.exists is false exactly on none). -/
def fsRead (fs : FS) (name : String) : Option (List String) :=
  fs.lookup name

/-- Writes a file, replacing any previous content. -/
def fsWrite (fs : FS) (name : String) (lines : List String) : FS :=
  (name, lines) :: fs.filter (fun e => e.1 != name)

/-- Dict assignment into a mapping table: replaces the entry of an existing
key in place, appends a fresh key. -/
def tableSet (t : MapTable) (k v : Int) : MapTable :=
  if (t.lookup k).isSome then
    t.map (fun e => if e.1 == k then (k, v) else e)
  else
    t ++ [(k, v)]

/-- The statement if model_name not in self.cache then self.cache[model_name]
becomes an empty dict, shared by get_mapping, set_mapping and the loaders. -/
def cacheEnsure (c : MapCache) (m : String) : MapCache :=
  if (c.lookup m).isSome then c else c ++ [(m, [])]

/-- Replaces the table stored under one model name (the model is assumed
present, as after cacheEnsure). -/
def cacheSetTable (c : MapCache) (m : String) (t : MapTable) : MapCache :=
  c.map (fun e => if e.1 == m then (m, t) else e)

/-- The mutable state of core/mapping.py MappingProvider: its in-memory
cache.  The connection handles and the mapping directory are collaborators
that carry no migration state. -/
structure Provider where
  cache : MapCache
deriving DecidableEq

/-- Embeds the str.strip call character by character: drops leading and
trailing whitespace. -/
def pyStrip (s : String) : String :=
  ⟨((s.data.dropWhile (fun c => c.isWhitespace)).reverse.dropWhile
    (fun c => c.isWhitespace)).reverse⟩

/-- Embeds str.split with a one-character separator, over the character
list: the groups between occurrences of the separator. -/
def splitChar (sep : Char) : List Char → List (List Char)
  | [] => [[]]
  | c :: cs =>
    match splitChar sep cs with
    | [] => [[c]]
    | g :: gs => if c == sep then [] :: g :: gs else (c :: g) :: gs

/-- Embeds the int built-in on a list of digit characters: some value when
every character is a decimal digit, none otherwise. -/
def pyToNat? (cs : List Char) : Option Nat :=
  if cs.isEmpty then none
  else if cs.all (fun c => c.isDigit) then
    some (cs.foldl (fun n c => n * 10 + (c.toNat - 48)) 0)
  else none

/-- Embeds the int built-in including a leading minus sign. -/
def pyToInt? (cs : List Char) : Option Int :=
  match cs with
  | '-' :: rest => (pyToNat? rest).map (fun n => -(n : Int))
  | _ => (pyToNat? cs).map (fun n => (n : Int))

namespace MappingProvider

/-- Embeds MappingProvider.get_mapping (core/mapping.py lines 101-111): it
inserts an empty table for an unknown model, then answers from the in-memory
cache only.  Its arguments show that it touches neither the file system nor
any connection. -/
def get_mapping (p : Provider) (model : String) (source_id : Int) :
    Provider × Option Int :=
  let p := { p with cache := cacheEnsure p.cache model }
  (p, ((p.cache.lookup model).getD []).lookup source_id)

/-- Embeds MappingProvider.set_mapping (core/mapping.py lines 113-123). -/
def set_mapping (p : Provider) (model : String) (source_id dest_id : Int) :
    Provider :=
  let c := cacheEnsure p.cache model
  let t := tableSet ((c.lookup model).getD []) source_id dest_id
  { p with cache := cacheSetTable c model t }

/-- Embeds the body of the for loop inside load_mappings_from_files
(core/mapping.py line 76): line.strip().split on the equals sign must give
exactly two parts, each parsed by int, else ValueError. -/
def parse_map_line (line : String) : Except PyErr (Int × Int) :=
  match splitChar '=' (pyStrip line).data with
  | [a, b] =>
    match pyToInt? (pyStrip ⟨a⟩).data, pyToInt? (pyStrip ⟨b⟩).data with
    | some s, some d => .ok (s, d)
    | _, _ => .error (.valueError line)
  | _ => .error (.valueError line)

/-- Embeds MappingProvider.load_mappings_from_files (core/mapping.py lines
63-77).  The source guards the read with if not os.path.exists(mapping_file):
when the file exists the guard is false and nothing is loaded; when the file
is missing the guard is true and open raises FileNotFoundError, so the parse
loop (parse_map_line) is unreachable. -/
def load_mappings_from_files (fs : FS) (p : Provider) (model : String) :
    Except PyErr Provider :=
  let mapping_file := model ++ ".map"
  let p := { p with cache := cacheEnsure p.cache model }
  match fsRead fs mapping_file with
  | some _ => .ok p
  | none => .error (.fileNotFound mapping_file)

/-- Embeds the f-string written by save_mappings (core/mapping.py line 95):
source id, an arrow made of a dash and a greater-than sign, destination id. -/
def serialize_map_line (e : Int × Int) : String :=
  toString e.1 ++ "->" ++ toString e.2

/-- Embeds MappingProvider.save_mappings (core/mapping.py lines 87-95);
none models the KeyError raised when the model is not in the cache. -/
def save_mappings (p : Provider) (model : String) (fs : FS) : Option FS :=
  (p.cache.lookup model).map
    (fun tbl => fsWrite fs (model ++ ".map") (tbl.map serialize_map_line))

/-- Embeds MappingProvider.save_all_mappings (core/mapping.py lines 97-99):
iterates over the model names of the cache, so each save finds its key. -/
def save_all_mappings (p : Provider) (fs : FS) : FS :=
  p.cache.foldl (fun acc e => (save_mappings p e.1 acc).getD acc) fs

end MappingProvider

/-- A source item as fetched by the MappingLoader: its id and its other
fields, each a string (getattr reads one of them by name). -/
structure SrcItem where
  id : Int
  fields : List (String × String)
deriving DecidableEq

/-- Embeds OdooConnection.search_by_field (core/odoo.py lines 65-68) over a
collaborator database held as a list of items in id order: the ids of the
items whose given field equals the value, truncated to the limit. -/
def search_by_field (db : List SrcItem) (field value : String) (limit : Nat) :
    List Int :=
  (((db.filter (fun it => it.fields.lookup field == some value)).map
    (fun it => it.id)).take limit)

namespace MappingLoader

/-- Embeds the body of the for loop over src_items inside
MappingLoader.load_mapping_by_field_from_database (core/mapping.py lines
29-38).  Note two facts taken from the source: the search runs against
odoo_src, the source connection, and always on the field called name, while
the value is getattr of field_name on the item (a missing attribute raises
AttributeError). -/
def seed_page (srcDb : List SrcItem) (field : String) :
    List SrcItem → MapTable → Except PyErr MapTable
  | [], acc => .ok acc
  | it :: rest, acc =>
    match it.fields.lookup field with
    | none => .error (.attributeError field)
    | some v =>
      let dst_items := search_by_field srcDb "name" v 1
      let acc :=
        match dst_items.head? with
        | some j => tableSet acc it.id j
        | none => acc
      seed_page srcDb field rest acc

/-- Embeds the while loop of load_mapping_by_field_from_database
(core/mapping.py lines 23-40): fetch pages of 100 items in id order starting
at the offset, stop on an empty page, seed the cache from every page.  The
fuel argument only bounds the iteration count; load_mapping_by_field
supplies enough fuel for the loop to reach its empty page. -/
def load_loop (srcDb : List SrcItem) (field : String) :
    Nat → Nat → MapTable → Except PyErr MapTable
  | 0, _, acc => .ok acc
  | fuel + 1, offset, acc =>
    let src_items := (srcDb.drop offset).take 100
    if src_items.length = 0 then .ok acc
    else
      match seed_page srcDb field src_items acc with
      | .error e => .error e
      | .ok acc => load_loop srcDb field fuel (offset + 100) acc

/-- Embeds MappingLoader.load_mapping_by_field_from_database (core/mapping.py
lines 18-40).  The dstDb argument mirrors the odoo_dst connection the loader
holds; the body never consults it.  On success the seeded table is stored
under the model name in the loader cache. -/
def load_mapping_by_field_from_database (srcDb dstDb : List SrcItem)
    (model field : String) (cache : MapCache) : Except PyErr MapCache :=
  let cache := cacheEnsure cache model
  match load_loop srcDb field (srcDb.length + 1) 0
      ((cache.lookup model).getD []) with
  | .ok tbl => .ok (cacheSetTable cache model tbl)
  | .error e => .error e

/-- Embeds MappingLoader.load_mapping_by_name_from_database (core/mapping.py
lines 42-44). -/
def load_mapping_by_name_from_database (srcDb dstDb : List SrcItem)
    (model : String) (cache : MapCache) : Except PyErr MapCache :=
  load_mapping_by_field_from_database srcDb dstDb model "name" cache

end MappingLoader

/-- Embeds the str.lower call of core/mapping.py line 82 character by
character (adequate for the ASCII field names the program compares). -/
def pyLower (s : String) : String :=
  ⟨s.data.map Char.toLower⟩

/-- Embeds MappingProvider.load_mappings_from_database (core/mapping.py lines
79-85): it constructs a fresh MappingLoader, whose cache starts empty, runs
one of the two load methods on that loader, and returns without reading the
loader back, so the provider itself is returned unchanged on success. -/
def MappingProvider.load_mappings_from_database (srcDb dstDb : List SrcItem)
    (p : Provider) (model field : String) : Except PyErr Provider :=
  match (if pyLower field == "name" then
      MappingLoader.load_mapping_by_name_from_database srcDb dstDb model []
    else
      MappingLoader.load_mapping_by_field_from_database srcDb dstDb model
        field []) with
  | .ok _ => .ok p
  | .error e => .error e

/-- Embeds the page fetch used by Migration.migrate_model (executor.py line
76, through DomainHandler.fetch_items and the search of the source system):
the slice of the id-ordered source collection at the given offset, at most
limit long. -/
def fetchPage {R : Type} (src : List R) (offset limit : Nat) : List R :=
  (src.drop offset).take limit

/-- Embeds the transformation loop over one page (executor.py lines 81-83):
apply_transformations runs on each record in order and the operation lists
are concatenated; an exception escapes the loop at the record that raised
it.  The first component lists the records on which apply_transformations
was invoked, the second is the accumulated operations or the escaped
exception. -/
def transformPage {R T : Type} (tf : R → Except PyErr (List T)) :
    List R → List R × Except PyErr (List T)
  | [] => ([], .ok [])
  | r :: rs =>
    match tf r with
    | .error e => ([r], .error e)
    | .ok ts =>
      match transformPage tf rs with
      | (vis, .error e) => (r :: vis, .error e)
      | (vis, .ok ts2) => (r :: vis, .ok (ts ++ ts2))

/-- Observable outcome of one migrate_model run: the fetch calls issued
(offset and returned page, in order), the records passed to
apply_transformations in order, the final state of the mutable world, and
the exception that was caught and logged by migrate_model, if any. -/
structure RunResult (R T σ : Type) where
  fetches : List (Nat × List R)
  visited : List R
  state : σ
  caught : Option PyErr
deriving DecidableEq

/-- Embeds the while loop of Migration.migrate_model (executor.py lines
72-89) over a mutable world of type sigma: fetch a page at the offset, stop
when it has fewer than one record, otherwise transform every record with the
current world, save the accumulated operations, advance the offset by the
batch size and repeat.  An exception from a transform or from the save ends
the loop and is reported in the caught field, exactly as the except clauses
of migrate_model catch it after the loop is abandoned.  The fuel argument
only bounds iteration; migrate_model supplies enough for the loop to reach
its empty page. -/
def migrateLoop {R T σ : Type} (src : List R) (P : Nat)
    (tf : σ → R → Except PyErr (List T))
    (save : List T → σ → Except PyErr σ) :
    Nat → σ → Nat → RunResult R T σ
  | 0, s, _ => ⟨[], [], s, none⟩
  | fuel + 1, s, offset =>
    let records := fetchPage src offset P
    if records.length < 1 then ⟨[(offset, records)], [], s, none⟩
    else
      match transformPage (tf s) records with
      | (vis, .error e) => ⟨[(offset, records)], vis, s, some e⟩
      | (vis, .ok ts) =>
        match save ts s with
        | .error e => ⟨[(offset, records)], vis, s, some e⟩
        | .ok s2 =>
          let r := migrateLoop src P tf save fuel s2 (offset + P)
          ⟨(offset, records) :: r.fetches, vis ++ r.visited, r.state, r.caught⟩

/-- Embeds Migration.migrate_model (executor.py lines 60-95) with the batch
size left as the parameter P that the source fixes to 100: the loop starts
at offset zero with the given world.  Fuel src.length + 1 is enough for any
positive P, since the loop makes at most one fetch per source record plus
the final empty fetch. -/
def migrate_modelWith {R T σ : Type} (P : Nat) (src : List R)
    (tf : σ → R → Except PyErr (List T))
    (save : List T → σ → Except PyErr σ) (s : σ) : RunResult R T σ :=
  migrateLoop src P tf save (src.length + 1) s 0

/-- Embeds Migration.migrate_model with the batch size 100 of executor.py
line 74. -/
def migrate_model {R T σ : Type} (src : List R)
    (tf : σ → R → Except PyErr (List T))
    (save : List T → σ → Except PyErr σ) (s : σ) : RunResult R T σ :=
  migrate_modelWith 100 src tf save s

/-- A source res.users record with the fields that
ResUsersHandler.apply_transformations and save_into_destination read.
company_id holds the id member of the company reference, and new_id is the
back-reference field on the source record (none when unset). -/
structure SrcUser where
  id : Int
  name : String
  login : String
  email : String
  company_id : Int
  lang : String
  tz : String
  new_id : Option Int
deriving DecidableEq

/-- A destination record: its id and its stored fields.  The login is the
value of the login field, empty when unset. -/
structure DstUser where
  id : Int
  fields : FData
deriving DecidableEq

/-- Reads the login field of a destination record. -/
def DstUser.login (d : DstUser) : String :=
  match d.fields.lookup "login" with
  | some (.str s) => s
  | _ => ""

/-- The destination res.users collection together with the id the next
create call will assign. -/
structure DstState where
  users : List DstUser
  nextId : Int
deriving DecidableEq

/-- Embeds model.search with the domain login equals the value (used by
ResUsersHandler.user_exists at res_users.py lines 46-50 and by the update
branch of save_into_destination at lines 112-113): the ids of the matching
destination records, truncated to the limit. -/
def searchLoginIds (users : List DstUser) (login : String) (limit : Nat) :
    List Int :=
  ((users.filter (fun d => d.login == login)).map (fun d => d.id)).take limit

/-- Embeds dst_model.create: assigns the next id and appends the record. -/
def dstCreate (dst : DstState) (data : FData) : DstState × Int :=
  ({ users := dst.users ++ [⟨dst.nextId, data⟩], nextId := dst.nextId + 1 },
   dst.nextId)

/-- True when the destination collection holds a record with this id. -/
def dstHasId (dst : DstState) (i : Int) : Bool :=
  dst.users.any (fun d => d.id == i)

/-- Writes a values dict onto the destination record with this id. -/
def dstWriteFields (dst : DstState) (i : Int) (data : FData) : DstState :=
  { dst with
    users := dst.users.map
      (fun d => if d.id == i then { d with fields := mergeFields d.fields data }
                else d) }

/-- Embeds dst_record.write(data) after dst_model.browse(i): browse itself
never validates the id, the write fails when no record with that id exists. -/
def dstBrowseWrite (dst : DstState) (i : Int) (data : FData) :
    Except PyErr DstState :=
  if dstHasId dst i then .ok (dstWriteFields dst i data)
  else .error (.valueError "write on a missing destination record")

/-- Finds the source record browse(old_id) denotes. -/
def srcBrowse (srcs : List SrcUser) (i : Int) : Option SrcUser :=
  srcs.find? (fun u => u.id == i)

/-- Embeds src_record.write with a new_id value: updates the back-reference
field of the source record with that id. -/
def srcWriteNewId (srcs : List SrcUser) (i v : Int) : List SrcUser :=
  srcs.map (fun u => if u.id == i then { u with new_id := some v } else u)

/-- The check src_record.new_id is not None and src_record.new_id > 0 of
res_users.py line 109. -/
def backrefValid (n : Option Int) : Bool :=
  match n with
  | some v => decide (0 < v)
  | none => false

/-- The action field of a transformed record produced by
ResUsersHandler.apply_transformations. -/
inductive UAction where
  | create
  | update
deriving DecidableEq

/-- One transformed record as built by ResUsersHandler.apply_transformations:
the action, the model name and the data dict. -/
structure UserOp where
  action : UAction
  model : String
  data : FData
deriving DecidableEq

/-- Destination-visible effects performed by save_into_destination, recorded
in order: a create call with the id it returned, a write call on a
destination record, and a back-reference write on a source record. -/
inductive Effect where
  | created (id : Int)
  | updatedDst (id : Int) (data : FData)
  | wroteBackRef (srcId : Int) (newId : Int)
deriving DecidableEq

/-- True exactly on a create effect. -/
def Effect.isCreate : Effect → Bool
  | .created _ => true
  | _ => false

namespace ResUsersHandler

/-- Embeds ResUsersHandler.user_exists (res_users.py lines 46-50): a search
on the destination system for the login, limit one; true when an id came
back.  Its arguments show it reads only the destination collection. -/
def user_exists (dstUsers : List DstUser) (login : String) : Bool :=
  !(searchLoginIds dstUsers login 1).isEmpty

/-- Embeds ResUsersHandler.apply_transformations (res_users.py lines 52-84).
The cache argument mirrors the mapping_provider the handler holds; the body
of the method never reads it (the group lookup that would is commented out
in the source), so the create-or-update decision is user_exists alone. -/
def apply_transformations (cache : MapCache) (dstUsers : List DstUser)
    (r : SrcUser) : List UserOp :=
  if user_exists dstUsers r.login then
    [⟨.update, "res.users",
      [("login", .str r.login), ("old_id", .num r.id), ("name", .str r.name)]⟩]
  else
    [⟨.create, "res.users",
      [("name", .str r.name), ("login", .str r.login), ("email", .str r.email),
       ("company_id", .num r.company_id), ("lang", .str r.lang),
       ("tz", .str r.tz), ("old_id", .num r.id)]⟩]

/-- Embeds one pass of the for loop of ResUsersHandler.save_into_destination
(res_users.py lines 91-119).  The source record is browse of old_id from the
data dict; on the create action a destination create runs and the new id is
written to the back-reference; on the update action the target is the
back-reference when it is set and positive, else the first id of a
destination login search, and when a target was found the back-reference is
refreshed and the destination record written.  When neither path finds a
target the source falls through both if bodies and the record is left
untouched, with no exception. -/
def processRecord : List SrcUser × DstState × List Effect → UserOp →
    Except PyErr (List SrcUser × DstState × List Effect)
  | (srcs, dst, effs), rec =>
  match rec.data.lookup "old_id" with
  | some (.num oldId) =>
    match srcBrowse srcs oldId with
    | none => .error (.attributeError "browse of a missing source id")
    | some src_record =>
      match rec.action with
      | .create =>
        let r := dstCreate dst rec.data
        let srcs2 := srcWriteNewId srcs src_record.id r.2
        .ok (srcs2, r.1,
          effs ++ [.created r.2, .wroteBackRef src_record.id r.2])
      | .update =>
        let target : Option Int :=
          if backrefValid src_record.new_id then src_record.new_id
          else (searchLoginIds dst.users src_record.login 1).head?
        match target with
        | some i =>
          let srcs2 := srcWriteNewId srcs src_record.id i
          match dstBrowseWrite dst i rec.data with
          | .ok dst2 =>
            .ok (srcs2, dst2,
              effs ++ [.wroteBackRef src_record.id i, .updatedDst i rec.data])
          | .error e => .error e
        | none => .ok (srcs, dst, effs)
  | _ => .error (.valueError "old_id missing from the data dict")

/-- Embeds ResUsersHandler.save_into_destination (res_users.py lines 86-119):
the for loop over the transformed records, an exception escaping at the
record that raised it. -/
def save_into_destination (records : List UserOp) (srcs : List SrcUser)
    (dst : DstState) :
    Except PyErr (List SrcUser × DstState × List Effect) :=
  records.foldlM processRecord (srcs, dst, [])

end ResUsersHandler

/-- The mutable world of a res.users migration run: the source collection
(whose back-reference fields the run may write), the destination collection,
the mapping provider and the mapping directory. -/
structure World where
  srcUsers : List SrcUser
  dst : DstState
  provider : Provider
  fs : FS
deriving DecidableEq

/-- The transform step of the res.users migration as migrate_model invokes
it: apply_transformations with the mapping cache the handler holds and the
current destination collection. -/
def resUsersTransform (w : World) (r : SrcUser) : Except PyErr (List UserOp) :=
  .ok (ResUsersHandler.apply_transformations w.provider.cache w.dst.users r)

/-- The save step of the res.users migration as migrate_model invokes it:
save_into_destination over the current source and destination collections.
It writes no mapping file and does not touch the provider, which the
signature of save_into_destination makes plain. -/
def resUsersSave (ts : List UserOp) (w : World) : Except PyErr World :=
  match ResUsersHandler.save_into_destination ts w.srcUsers w.dst with
  | .ok r => .ok { w with srcUsers := r.1, dst := r.2.1 }
  | .error e => .error e

/-- Embeds the migrate_model run for the model res.users (executor.py lines
60-95 dispatching to ResUsersHandler). -/
def resUsersMigrate (w : World) : RunResult SrcUser UserOp World :=
  migrate_model w.srcUsers resUsersTransform resUsersSave w

/-- A source category reference as read by the res.groups handler: the name
field of the referenced ir.module.category record. -/
structure SrcCategory where
  name : String
deriving DecidableEq

/-- A source res.groups record with the fields that
ResGroupsHandler.apply_transformations reads; company_id holds the id member
of the company reference and category_id is none when the reference is
empty. -/
structure SrcGroup where
  id : Int
  name : String
  company_id : Int
  comment : String
  category_id : Option SrcCategory
deriving DecidableEq

/-- One transformed record as built by ResGroupsHandler.apply_transformations:
the model name and the data dict. -/
structure GroupOp where
  model : String
  data : FData
deriving DecidableEq

namespace ResGroupsHandler

/-- Embeds ResGroupsHandler.find_dest_category_id (groups.py lines 35-51):
with a category present, fetch_ids on the destination for an
ir.module.category of that name, limit one, the first id on a hit and
ResourceNotFound on a miss; ResourceNotFound also on an empty category.  The
destination categories are a list of id and name pairs in id order. -/
def find_dest_category_id (dstCats : List (Int × String))
    (src_category : Option SrcCategory) : Except PyErr Int :=
  match src_category with
  | some c =>
    match ((dstCats.filter (fun e => e.2 == c.name)).map
        (fun e => e.1)).head? with
    | some i => .ok i
    | none =>
      .error (.resourceNotFound
        ("Was not found a category with name = \"" ++ c.name ++ "\""))
  | none => .error (.resourceNotFound "The category can not be empty")

/-- Embeds ResGroupsHandler.apply_transformations (groups.py lines 63-83):
builds the group data dict, resolves the destination category (which may
raise ResourceNotFound), stores it when its id is truthy, and returns the
one transformed record. -/
def apply_transformations (dstCats : List (Int × String)) (r : SrcGroup) :
    Except PyErr (List GroupOp) :=
  let group_data : FData :=
    [("name", .str r.name), ("company_id", .num r.company_id),
     ("comment", .str r.comment)]
  match find_dest_category_id dstCats r.category_id with
  | .error e => .error e
  | .ok category_id =>
    let group_data :=
      if category_id ≠ 0 then setField group_data "category_id"
        (.num category_id)
      else group_data
    .ok [⟨"res.groups", group_data⟩]

end ResGroupsHandler

/-! Helper lemmas shared by the claim theorems. -/

/-- A destination record whose login matches makes the limited login search
non-empty. -/
lemma searchLoginIds_ne_nil {dstUsers : List DstUser} {login : String}
    (h : ∃ d ∈ dstUsers, d.login = login) :
    searchLoginIds dstUsers login 1 ≠ [] := by
  obtain ⟨d, hd, hl⟩ := h
  have hmem : d ∈ dstUsers.filter (fun x => x.login == login) := by
    simp [List.mem_filter, hd, hl]
  unfold searchLoginIds
  cases hfe : dstUsers.filter (fun x => x.login == login) with
  | nil => rw [hfe] at hmem; cases hmem
  | cons a as => simp

/-- A destination record whose login matches makes user_exists true. -/
lemma user_exists_of_mem {dstUsers : List DstUser} {login : String}
    (h : ∃ d ∈ dstUsers, d.login = login) :
    ResUsersHandler.user_exists dstUsers login = true := by
  have h1 := searchLoginIds_ne_nil h
  unfold ResUsersHandler.user_exists
  cases hs : searchLoginIds dstUsers login 1 with
  | nil => exact absurd hs h1
  | cons a as => rfl

/-- With a destination match on the login, apply_transformations is exactly
the one update operation. -/
lemma apply_transformations_of_exists {cache : MapCache}
    {dstUsers : List DstUser} {r : SrcUser}
    (h : ∃ d ∈ dstUsers, d.login = r.login) :
    ResUsersHandler.apply_transformations cache dstUsers r =
      [⟨.update, "res.users",
        [("login", .str r.login), ("old_id", .num r.id),
         ("name", .str r.name)]⟩] := by
  unfold ResUsersHandler.apply_transformations
  rw [user_exists_of_mem h]
  rfl

/-- The update data dict stores old_id under the old_id key. -/
lemma lookup_old_id_update (a c : String) (b : Int) :
    (([("login", FVal.str a), ("old_id", FVal.num b), ("name", FVal.str c)] :
      FData).lookup "old_id") = some (FVal.num b) := by
  rfl

/-- Folding the record loop over a one-element list is one processRecord. -/
lemma save_into_destination_singleton (op : UserOp) (srcs : List SrcUser)
    (dst : DstState) :
    ResUsersHandler.save_into_destination [op] srcs dst =
      ResUsersHandler.processRecord (srcs, dst, []) op := by
  unfold ResUsersHandler.save_into_destination
  cases h : ResUsersHandler.processRecord (srcs, dst, []) op with
  | ok st => simp [List.foldlM, h]
  | error e => simp [List.foldlM, h]

/-- When the transform succeeds on a prefix and fails on the next record,
the page transform visits exactly the prefix and the failing record and
escapes with its error. -/
lemma transformPage_error_at {R T : Type} (tf : R → Except PyErr (List T))
    (l1 : List R) (r : R) (l2 : List R) (e : PyErr)
    (hok : ∀ x ∈ l1, (tf x).isOk = true) (herr : tf r = .error e) :
    transformPage tf (l1 ++ r :: l2) = (l1 ++ [r], .error e) := by
  induction l1 with
  | nil => simp [transformPage, herr]
  | cons a as ih =>
    have ha : (tf a).isOk = true := hok a (by simp)
    cases hta : tf a with
    | error e2 => rw [hta] at ha; cases ha
    | ok ts =>
      have ih2 := ih (fun x hx => hok x (by simp [hx]))
      simp [transformPage, hta, ih2]

/-- When the transform succeeds on every record of the page, the page
transform visits the whole page and succeeds. -/
lemma transformPage_ok_of_isOk {R T : Type} (tf : R → Except PyErr (List T))
    (l : List R) (h : ∀ x ∈ l, (tf x).isOk = true) :
    ∃ ts, transformPage tf l = (l, .ok ts) := by
  induction l with
  | nil => exact ⟨[], rfl⟩
  | cons a as ih =>
    cases hta : tf a with
    | error e =>
      have ha := h a (by simp)
      rw [hta] at ha; cases ha
    | ok ts =>
      obtain ⟨ts2, hts2⟩ := ih (fun x hx => h x (by simp [hx]))
      exact ⟨ts ++ ts2, by simp [transformPage, hta, hts2]⟩

/-- A predicate on the world that every successful save preserves is
preserved by the whole migrate_model loop. -/
lemma migrateLoop_preserves {R T σ : Type} (src : List R) (P : Nat)
    (tf : σ → R → Except PyErr (List T))
    (save : List T → σ → Except PyErr σ) (Q : σ → Prop)
    (hsave : ∀ ts s s2, save ts s = .ok s2 → Q s → Q s2) :
    ∀ fuel s offset, Q s →
      Q (migrateLoop src P tf save fuel s offset).state := by
  intro fuel
  induction fuel with
  | zero => intro s offset hq; exact hq
  | succ n ih =>
    intro s offset hq
    simp only [migrateLoop]
    split
    · exact hq
    · split
      · exact hq
      · split
        · exact hq
        · rename_i s2 hs2
          exact ih s2 (offset + P) (hsave _ s s2 hs2 hq)

/-! Claim theorems. -/

/-- C1: for every source record whose login already matches a destination
record, ResUsersHandler.apply_transformations produces only update
operations, and running save_into_destination on them performs no create
and leaves the destination record count unchanged, so no duplicate
destination record is created. -/
theorem resUsers_matched_login_only_updates (cache : MapCache)
    (dstUsers : List DstUser) (r : SrcUser)
    (h : ∃ d ∈ dstUsers, d.login = r.login) :
    (∀ op ∈ ResUsersHandler.apply_transformations cache dstUsers r,
      op.action = UAction.update) ∧
    (∀ srcs dst res, dst.users = dstUsers →
      ResUsersHandler.save_into_destination
          (ResUsersHandler.apply_transformations cache dstUsers r) srcs dst
        = .ok res →
      (∀ e ∈ res.2.2, e.isCreate = false) ∧
      res.2.1.users.length = dst.users.length) := by
  have happ := @apply_transformations_of_exists cache dstUsers r h
  constructor
  · intro op hop
    rw [happ] at hop
    simp at hop
    rw [hop]
  · intro srcs dst res hdst hok
    rw [happ, save_into_destination_singleton] at hok
    cases hb : srcBrowse srcs r.id with
    | none =>
      simp [ResUsersHandler.processRecord, lookup_old_id_update, hb] at hok
    | some u =>
      simp only [ResUsersHandler.processRecord, lookup_old_id_update, hb]
        at hok
      split at hok
      · split at hok
        · rename_i dst2 hw
          injection hok with hok
          rw [← hok]
          constructor
          · intro e he
            simp at he
            rcases he with he | he <;> rw [he] <;> rfl
          · unfold dstBrowseWrite at hw
            split at hw
            · injection hw with hw
              rw [← hw]
              unfold dstWriteFields
              simp
            · cases hw
        · cases hok
      · injection hok with hok
        rw [← hok]
        exact ⟨fun e he => absurd he (by simp), rfl⟩

/-- C1 witness: a concrete destination holding the login makes the theorem
applicable and its conclusion evaluates. -/
theorem resUsers_matched_login_only_updates_witness :
    (∀ op ∈ ResUsersHandler.apply_transformations []
      [⟨7, [("login", FVal.str "a@x.com")]⟩]
      ⟨1, "Alice", "a@x.com", "a@x.com", 1, "en", "UTC", none⟩,
      op.action = UAction.update) ∧
    (∀ srcs dst res, dst.users = [⟨7, [("login", FVal.str "a@x.com")]⟩] →
      ResUsersHandler.save_into_destination
          (ResUsersHandler.apply_transformations []
            [⟨7, [("login", FVal.str "a@x.com")]⟩]
            ⟨1, "Alice", "a@x.com", "a@x.com", 1, "en", "UTC", none⟩)
          srcs dst
        = .ok res →
      (∀ e ∈ res.2.2, e.isCreate = false) ∧
      res.2.1.users.length = dst.users.length) :=
  resUsers_matched_login_only_updates []
    [⟨7, [("login", FVal.str "a@x.com")]⟩]
    ⟨1, "Alice", "a@x.com", "a@x.com", 1, "en", "UTC", none⟩
    ⟨⟨7, [("login", FVal.str "a@x.com")]⟩, by simp, by rfl⟩

/-- C2: the create-or-update decision of ResUsersHandler is independent of
the mapping cache: apply_transformations returns the same operations for
any two cache states, and the action is update exactly when the
destination-side login search user_exists succeeds, so a lost or stale
cache can not cause a duplicate creation. -/
theorem resUsers_decision_cache_independent (c1 c2 : MapCache)
    (dstUsers : List DstUser) (r : SrcUser) :
    ResUsersHandler.apply_transformations c1 dstUsers r
      = ResUsersHandler.apply_transformations c2 dstUsers r ∧
    (∀ op ∈ ResUsersHandler.apply_transformations c1 dstUsers r,
      op.action = if ResUsersHandler.user_exists dstUsers r.login
                  then UAction.update else UAction.create) := by
  constructor
  · rfl
  · intro op hop
    unfold ResUsersHandler.apply_transformations at hop
    cases h : ResUsersHandler.user_exists dstUsers r.login with
    | false => rw [h] at hop; simp at hop; rw [hop]; rfl
    | true => rw [h] at hop; simp at hop; rw [hop]; rfl

/-- C2 witness: the conclusion at one concrete record, an empty cache and a
stale cache that wrongly maps the record. -/
theorem resUsers_decision_cache_independent_witness :
    ResUsersHandler.apply_transformations [] []
        ⟨1, "Alice", "a@x.com", "a@x.com", 1, "en", "UTC", none⟩
      = ResUsersHandler.apply_transformations [("res.users", [(1, 99)])] []
        ⟨1, "Alice", "a@x.com", "a@x.com", 1, "en", "UTC", none⟩ ∧
    (∀ op ∈ ResUsersHandler.apply_transformations [] []
        ⟨1, "Alice", "a@x.com", "a@x.com", 1, "en", "UTC", none⟩,
      op.action = if ResUsersHandler.user_exists [] "a@x.com"
                  then UAction.update else UAction.create) :=
  resUsers_decision_cache_independent [] [("res.users", [(1, 99)])] []
    ⟨1, "Alice", "a@x.com", "a@x.com", 1, "en", "UTC", none⟩

/-- C10: load_mappings_from_database leaves the provider unchanged: whatever
the internally constructed MappingLoader seeded is discarded, so on success
the returned provider is the argument itself and get_mapping observes
nothing new. -/
theorem load_mappings_from_database_frame (srcDb dstDb : List SrcItem)
    (p : Provider) (model field : String) (q : Provider)
    (h : MappingProvider.load_mappings_from_database srcDb dstDb p model field
      = .ok q) :
    q = p ∧ ∀ m sid, (MappingProvider.get_mapping q m sid).2
      = (MappingProvider.get_mapping p m sid).2 := by
  unfold MappingProvider.load_mappings_from_database at h
  have hq : q = p := by
    cases hr : (if (pyLower field == "name") = true then
        MappingLoader.load_mapping_by_name_from_database srcDb dstDb model []
      else
        MappingLoader.load_mapping_by_field_from_database srcDb dstDb model
          field []) with
    | ok c => rw [hr] at h; simp at h; exact h.symm
    | error e => rw [hr] at h; simp at h
  exact ⟨hq, by rw [hq]; intro m sid; rfl⟩

/-- C3: the mapping round trip fails on the table holding the single pair
one to two: save_mappings writes the line with the arrow delimiter, but a
fresh provider loading that file back obtains the empty table, because
load_mappings_from_files skips the file that exists (its existence check is
inverted), and even its parse step rejects the written line since it splits
on the equals sign.  Serialization and parsing thus do not use the same
delimiter and the original table is not reproduced. -/
theorem mapping_round_trip_fails :
    MappingProvider.save_mappings ⟨[("res.users", [(1, 2)])]⟩ "res.users" []
      = some [("res.users.map", ["1->2"])] ∧
    MappingProvider.load_mappings_from_files [("res.users.map", ["1->2"])]
      ⟨[]⟩ "res.users" = .ok ⟨[("res.users", [])]⟩ ∧
    MappingProvider.parse_map_line "1->2" = .error (.valueError "1->2") ∧
    ([("res.users", ([] : MapTable))] : MapCache)
      ≠ [("res.users", [(1, 2)])] := by
  refine ⟨by rfl, by rfl, by rfl, by simp⟩

/-- C7: get_mapping never lazily loads the persisted table: on a fresh
provider it answers none for a pair that the mapping file stores, even in
the format its own parser expects; moreover load_mappings_from_files raises
FileNotFoundError on a missing backing file instead of treating it as an
empty table, and loads nothing from a file that exists. -/
theorem get_mapping_ignores_durable_storage :
    (MappingProvider.get_mapping ⟨[]⟩ "res.users" 1).2 = none ∧
    MappingProvider.load_mappings_from_files [] ⟨[]⟩ "res.users"
      = .error (.fileNotFound "res.users.map") ∧
    MappingProvider.load_mappings_from_files [("res.users.map", ["1=2"])]
      ⟨[]⟩ "res.users" = .ok ⟨[("res.users", [])]⟩ := by
  refine ⟨by rfl, by rfl, by rfl⟩

/-- C9: the loader searches the source system, not the destination: with a
source item of id three named A and a destination item of id
seventy-seven with the same name, the seeded table maps three to three (the
source item finds itself) instead of three to seventy-seven, and the result
is unchanged when the destination collection is replaced by an empty one,
showing the destination is never consulted. -/
theorem bulk_populate_searches_source_not_destination :
    MappingLoader.load_mapping_by_field_from_database
        [⟨3, [("name", "A")]⟩] [⟨77, [("name", "A")]⟩] "product.attribute"
        "name" []
      = .ok [("product.attribute", [(3, 3)])] ∧
    MappingLoader.load_mapping_by_field_from_database
        [⟨3, [("name", "A")]⟩] [] "product.attribute" "name" []
      = MappingLoader.load_mapping_by_field_from_database
        [⟨3, [("name", "A")]⟩] [⟨77, [("name", "A")]⟩] "product.attribute"
        "name" [] := by
  exact ⟨by rfl, by rfl⟩

/-- C5 counterexample: an update operation whose source record has no
back-reference and whose login is absent from the destination completes
without any exception and without any effect, whereas the claim requires
ResourceNotFound to be raised for that record. -/
theorem update_unresolved_raises_nothing :
    ResUsersHandler.save_into_destination
        [⟨.update, "res.users",
          [("login", FVal.str "a@x.com"), ("old_id", FVal.num 1),
           ("name", FVal.str "Alice")]⟩]
        [⟨1, "Alice", "a@x.com", "a@x.com", 1, "en", "UTC", none⟩]
        ⟨[], 1⟩
      = .ok ([⟨1, "Alice", "a@x.com", "a@x.com", 1, "en", "UTC", none⟩],
          ⟨[], 1⟩, []) := by
  rfl

/-- C5 as amended: for an update operation the target is the back-reference
when it is set and positive, else the first id of a destination login
search; when a target is found the back-reference is refreshed and the
destination record written; when neither path resolves, the record is
silently skipped with no exception and no effect. -/
theorem resUsers_update_target_resolution (srcs : List SrcUser)
    (dst : DstState) (effs : List Effect) (u : SrcUser) (d : FData)
    (oldId : Int) (hd : d.lookup "old_id" = some (.num oldId))
    (hb : srcBrowse srcs oldId = some u) :
    (∀ v, u.new_id = some v → 0 < v → dstHasId dst v = true →
      ResUsersHandler.processRecord (srcs, dst, effs)
          ⟨.update, "res.users", d⟩
        = .ok (srcWriteNewId srcs u.id v, dstWriteFields dst v d,
            effs ++ [.wroteBackRef u.id v, .updatedDst v d])) ∧
    (backrefValid u.new_id = false →
      ∀ i, (searchLoginIds dst.users u.login 1).head? = some i →
        dstHasId dst i = true →
        ResUsersHandler.processRecord (srcs, dst, effs)
            ⟨.update, "res.users", d⟩
          = .ok (srcWriteNewId srcs u.id i, dstWriteFields dst i d,
              effs ++ [.wroteBackRef u.id i, .updatedDst i d])) ∧
    (backrefValid u.new_id = false →
      (searchLoginIds dst.users u.login 1).head? = none →
      ResUsersHandler.processRecord (srcs, dst, effs)
          ⟨.update, "res.users", d⟩
        = .ok (srcs, dst, effs)) := by
  refine ⟨?_, ?_, ?_⟩
  · intro v hv hpos hhas
    have hbv : backrefValid (some v) = true := by
      simp [backrefValid]; omega
    simp [ResUsersHandler.processRecord, hd, hb, hv, hbv, dstBrowseWrite,
      hhas]
  · intro hbv i hsearch hhas
    simp [ResUsersHandler.processRecord, hd, hb, hbv, hsearch,
      dstBrowseWrite, hhas]
  · intro hbv hsearch
    simp [ResUsersHandler.processRecord, hd, hb, hbv, hsearch]

/-- C5 witness: with a valid back-reference five pointing at an existing
destination record, the update targets five, writes it and refreshes the
back-reference. -/
theorem resUsers_update_target_resolution_witness :
    ResUsersHandler.processRecord
        ([⟨1, "Alice", "a@x.com", "a@x.com", 1, "en", "UTC", some 5⟩],
         ⟨[⟨5, [("login", FVal.str "a@x.com")]⟩], 6⟩, [])
        ⟨.update, "res.users",
         [("login", FVal.str "a@x.com"), ("old_id", FVal.num 1),
          ("name", FVal.str "Alice")]⟩
      = .ok (srcWriteNewId
            [⟨1, "Alice", "a@x.com", "a@x.com", 1, "en", "UTC", some 5⟩] 1 5,
          dstWriteFields ⟨[⟨5, [("login", FVal.str "a@x.com")]⟩], 6⟩ 5
            [("login", FVal.str "a@x.com"), ("old_id", FVal.num 1),
             ("name", FVal.str "Alice")],
          [] ++ [.wroteBackRef 1 5, .updatedDst 5
            [("login", FVal.str "a@x.com"), ("old_id", FVal.num 1),
             ("name", FVal.str "Alice")]]) :=
  (resUsers_update_target_resolution
      [⟨1, "Alice", "a@x.com", "a@x.com", 1, "en", "UTC", some 5⟩]
      ⟨[⟨5, [("login", FVal.str "a@x.com")]⟩], 6⟩ []
      ⟨1, "Alice", "a@x.com", "a@x.com", 1, "en", "UTC", some 5⟩
      [("login", FVal.str "a@x.com"), ("old_id", FVal.num 1),
       ("name", FVal.str "Alice")] 1 (by rfl) (by rfl)).1
    5 rfl (by decide) (by rfl)

/-- C10 witness: a concrete successful call returns the provider it was
given. -/
theorem load_mappings_from_database_frame_witness :
    (⟨[("res.groups", [(4, 5)])]⟩ : Provider) = ⟨[("res.groups", [(4, 5)])]⟩ ∧
    ∀ m sid,
      (MappingProvider.get_mapping (⟨[("res.groups", [(4, 5)])]⟩ : Provider)
        m sid).2
      = (MappingProvider.get_mapping (⟨[("res.groups", [(4, 5)])]⟩ : Provider)
        m sid).2 :=
  load_mappings_from_database_frame [⟨3, [("name", "A")]⟩] []
    ⟨[("res.groups", [(4, 5)])]⟩ "res.groups" "name"
    ⟨[("res.groups", [(4, 5)])]⟩ (by rfl)

/-- C4 counterexample: a page of three groups in which only the second has
an unresolvable category.  The claim requires the first and third records
to be fully processed and only the second skipped, but the run visits only
the first two records (the third is never transformed), writes nothing to
the destination, and the exception is what migrate_model catches. -/
theorem resourceNotFound_aborts_remaining_page :
    ((⟨3, "G3", 1, "c3", some ⟨"Good"⟩⟩ : SrcGroup) ∉
      (migrate_model
        [⟨1, "G1", 1, "c1", some ⟨"Good"⟩⟩, ⟨2, "G2", 1, "c2", some ⟨"Bad"⟩⟩,
         ⟨3, "G3", 1, "c3", some ⟨"Good"⟩⟩]
        (fun (_ : List GroupOp) r =>
          ResGroupsHandler.apply_transformations [(5, "Good")] r)
        (fun ts s => .ok (s ++ ts)) []).visited) ∧
    (migrate_model
        [⟨1, "G1", 1, "c1", some ⟨"Good"⟩⟩, ⟨2, "G2", 1, "c2", some ⟨"Bad"⟩⟩,
         ⟨3, "G3", 1, "c3", some ⟨"Good"⟩⟩]
        (fun (_ : List GroupOp) r =>
          ResGroupsHandler.apply_transformations [(5, "Good")] r)
        (fun ts s => .ok (s ++ ts)) []).state = ([] : List GroupOp) ∧
    (migrate_model
        [⟨1, "G1", 1, "c1", some ⟨"Good"⟩⟩, ⟨2, "G2", 1, "c2", some ⟨"Bad"⟩⟩,
         ⟨3, "G3", 1, "c3", some ⟨"Good"⟩⟩]
        (fun (_ : List GroupOp) r =>
          ResGroupsHandler.apply_transformations [(5, "Good")] r)
        (fun ts s => .ok (s ++ ts)) []).caught
      = some (.resourceNotFound
          "Was not found a category with name = \"Bad\"") := by
  refine ⟨by decide, by rfl, by rfl⟩

/-- C4 as amended: a record that raises during the transformation of a page
aborts the whole entity type, not just that record: the records after it in
the page are not transformed, the page is not written (the world is
unchanged), no further page is fetched, and the exception is caught at the
entity-type level. -/
theorem migrate_model_aborts_entity_on_transform_error {R T σ : Type}
    (P : Nat) (src : List R) (tf : σ → R → Except PyErr (List T))
    (save : List T → σ → Except PyErr σ) (s : σ)
    (l1 : List R) (r : R) (l2 : List R) (e : PyErr)
    (hok : ∀ x ∈ l1, (tf s x).isOk = true)
    (herr : tf s r = .error e)
    (hpage : fetchPage src 0 P = l1 ++ r :: l2) :
    migrate_modelWith P src tf save s
      = ⟨[(0, l1 ++ r :: l2)], l1 ++ [r], s, some e⟩ := by
  unfold migrate_modelWith
  simp only [migrateLoop]
  rw [hpage, transformPage_error_at (tf s) l1 r l2 e hok herr]
  simp

/-- C4 witness: the concrete three-group page of the counterexample
satisfies the hypotheses of the amended theorem with the failing record in
the middle, and the conclusion evaluates on it. -/
theorem migrate_model_aborts_entity_on_transform_error_witness :
    migrate_modelWith 100
        [⟨1, "G1", 1, "c1", some ⟨"Good"⟩⟩, ⟨2, "G2", 1, "c2", some ⟨"Bad"⟩⟩,
         ⟨3, "G3", 1, "c3", some ⟨"Good"⟩⟩]
        (fun (_ : List GroupOp) r =>
          ResGroupsHandler.apply_transformations [(5, "Good")] r)
        (fun ts s => .ok (s ++ ts)) []
      = ⟨[(0, [⟨1, "G1", 1, "c1", some ⟨"Good"⟩⟩] ++
            ⟨2, "G2", 1, "c2", some ⟨"Bad"⟩⟩ ::
            [⟨3, "G3", 1, "c3", some ⟨"Good"⟩⟩])],
         [⟨1, "G1", 1, "c1", some ⟨"Good"⟩⟩] ++
            [⟨2, "G2", 1, "c2", some ⟨"Bad"⟩⟩], [],
         some (.resourceNotFound
           "Was not found a category with name = \"Bad\"")⟩ :=
  migrate_model_aborts_entity_on_transform_error 100
    [⟨1, "G1", 1, "c1", some ⟨"Good"⟩⟩, ⟨2, "G2", 1, "c2", some ⟨"Bad"⟩⟩,
     ⟨3, "G3", 1, "c3", some ⟨"Good"⟩⟩]
    (fun (_ : List GroupOp) r =>
      ResGroupsHandler.apply_transformations [(5, "Good")] r)
    (fun ts s => .ok (s ++ ts)) []
    [⟨1, "G1", 1, "c1", some ⟨"Good"⟩⟩] ⟨2, "G2", 1, "c2", some ⟨"Bad"⟩⟩
    [⟨3, "G3", 1, "c3", some ⟨"Good"⟩⟩]
    (.resourceNotFound "Was not found a category with name = \"Bad\"")
    (by decide) (by rfl) (by rfl)

/-- C8 counterexample: a res.users migration run started with a non-empty
mapping cache and no mapping file leaves the mapping directory empty at the
end, although a flush of the final cache would have written the res.groups
mapping file; so the cache is not flushed at the end of the entity type. -/
theorem migrate_model_never_flushes_mappings :
    (resUsersMigrate ⟨[], ⟨[], 1⟩, ⟨[("res.groups", [(1, 2)])]⟩, []⟩).state.fs
      = [] ∧
    MappingProvider.save_all_mappings
        (resUsersMigrate
          ⟨[], ⟨[], 1⟩, ⟨[("res.groups", [(1, 2)])]⟩, []⟩).state.provider
        (resUsersMigrate
          ⟨[], ⟨[], 1⟩, ⟨[("res.groups", [(1, 2)])]⟩, []⟩).state.fs
      = [("res.groups.map", ["1->2"])] ∧
    ([] : FS) ≠ [("res.groups.map", ["1->2"])] := by
  refine ⟨by rfl, by rfl, by simp⟩

/-- C8 as amended: the executor never flushes the MappingStore; at the end
of a res.users migrate_model run the mapping files and the provider are
exactly as they were at the start, whatever the initial world
(save_all_mappings exists in MappingProvider but has no caller in the
executor). -/
theorem resUsersMigrate_leaves_mapping_storage_unchanged (w : World) :
    (resUsersMigrate w).state.fs = w.fs ∧
    (resUsersMigrate w).state.provider = w.provider := by
  have h := migrateLoop_preserves w.srcUsers 100 resUsersTransform
    resUsersSave
    (fun w2 => w2.fs = w.fs ∧ w2.provider = w.provider)
    (by
      intro ts s s2 hs hq
      unfold resUsersSave at hs
      cases hr : ResUsersHandler.save_into_destination ts s.srcUsers s.dst
          with
      | error e => rw [hr] at hs; cases hs
      | ok r => rw [hr] at hs; injection hs with hs; rw [← hs]; exact hq)
    (w.srcUsers.length + 1) w 0 ⟨rfl, rfl⟩
  exact h

/-- Step equation for the fetch-call count: with at least one record left
and a positive page size, the count from here is one more than the count
after advancing the offset by one page. -/
lemma ceil_count_step (M P : Nat) (hM : 1 ≤ M) (hP : 0 < P) :
    (M + P - 1) / P + 1 = ((M - P + P - 1) / P + 1) + 1 := by
  have h1 : M + P - 1 = (M - 1) + P := by omega
  rw [h1, Nat.add_div_right _ hP]
  rcases Nat.le_total M P with h | h
  · have h2 : M - P = 0 := by omega
    rw [h2]
    have h3 : (M - 1) / P = 0 := Nat.div_eq_of_lt (by omega)
    have h4 : (0 + P - 1) / P = 0 := Nat.div_eq_of_lt (by omega)
    omega
  · have h3 : M - P + P - 1 = M - 1 := by omega
    rw [h3]

/-- getLast? skips a head in front of a non-empty tail. -/
lemma getLast?_cons_of_ne_nil {α : Type} (a : α) {l : List α} (h : l ≠ []) :
    (a :: l).getLast? = l.getLast? := by
  cases l with
  | nil => cases h rfl
  | cons b bs => rfl

/-- dropLast keeps a head in front of a non-empty tail. -/
lemma dropLast_cons_of_ne_nil {α : Type} (a : α) {l : List α} (h : l ≠ []) :
    (a :: l).dropLast = a :: l.dropLast := by
  cases l with
  | nil => cases h rfl
  | cons b bs => rfl

/-- Offsets of successive fetch calls: the range starting at the offset
advancing by P splits off its head. -/
lemma range_offset_step (offset P k : Nat) :
    (List.range (k + 1)).map (fun i => offset + i * P)
      = offset :: (List.range k).map (fun i => offset + P + i * P) := by
  rw [List.range_succ_eq_map, List.map_cons, List.map_map]
  congr 1
  · simp
  · apply List.map_congr_left
    intro i _
    simp only [Function.comp_apply, Nat.succ_eq_add_one]
    ring

/-- Pagination behaviour of the migrate_model loop from any offset, given
enough fuel: the loop makes one fetch per page plus the final empty fetch at
offsets advancing by the page size, visits exactly the records from the
offset on, stops only at the empty final page, and catches nothing. -/
lemma migrateLoop_pagination {R T σ : Type} (src : List R) (P : Nat)
    (tf : σ → R → Except PyErr (List T))
    (save : List T → σ → Except PyErr σ) (hP : 0 < P)
    (htf : ∀ s2 r, (tf s2 r).isOk = true)
    (hsave : ∀ ts s2, (save ts s2).isOk = true) :
    ∀ fuel offset s, src.length - offset + 1 ≤ fuel →
      (migrateLoop src P tf save fuel s offset).fetches.length
          = (src.length - offset + P - 1) / P + 1 ∧
      (migrateLoop src P tf save fuel s offset).fetches.map Prod.fst
          = (List.range ((src.length - offset + P - 1) / P + 1)).map
              (fun i => offset + i * P) ∧
      (migrateLoop src P tf save fuel s offset).fetches.getLast?.map
          Prod.snd = some [] ∧
      (migrateLoop src P tf save fuel s offset).visited = src.drop offset ∧
      (∀ pr ∈ (migrateLoop src P tf save fuel s offset).fetches.dropLast,
          pr.2 ≠ []) ∧
      (migrateLoop src P tf save fuel s offset).caught = none := by
  intro fuel
  induction fuel with
  | zero => intro offset s hle; omega
  | succ n ih =>
    intro offset s hle
    by_cases hoff : src.length ≤ offset
    · have hdrop : src.drop offset = [] := by
        rw [List.drop_eq_nil_iff]; exact hoff
      have hpage : fetchPage src offset P = [] := by
        unfold fetchPage; rw [hdrop]; exact List.take_nil
      have hM : src.length - offset = 0 := by omega
      have hres : migrateLoop src P tf save (n + 1) s offset
          = ⟨[(offset, [])], [], s, none⟩ := by
        simp [migrateLoop, hpage]
      rw [hres, hM]
      have hdiv : (0 + P - 1) / P = 0 := Nat.div_eq_of_lt (by omega)
      refine ⟨?_, ?_, ?_, ?_, ?_, ?_⟩
      · rw [hdiv]; rfl
      · rw [hdiv]; simp [List.range_succ]
      · rfl
      · simp [hdrop]
      · simp
      · rfl
    · push_neg at hoff
      have hpagelen : 0 < (fetchPage src offset P).length := by
        unfold fetchPage
        rw [List.length_take, List.length_drop]
        omega
      obtain ⟨ts, hts⟩ := transformPage_ok_of_isOk (tf s)
        (fetchPage src offset P) (fun x _ => htf s x)
      cases hsv : save ts s with
      | error e =>
        have hx := hsave ts s
        rw [hsv] at hx
        cases hx
      | ok s2 =>
        have hres : migrateLoop src P tf save (n + 1) s offset
            = ⟨(offset, fetchPage src offset P) ::
                (migrateLoop src P tf save n s2 (offset + P)).fetches,
              fetchPage src offset P ++
                (migrateLoop src P tf save n s2 (offset + P)).visited,
              (migrateLoop src P tf save n s2 (offset + P)).state,
              (migrateLoop src P tf save n s2 (offset + P)).caught⟩ := by
          simp only [migrateLoop]
          rw [if_neg (by omega)]
          simp only [hts, hsv]
        have hn : src.length - (offset + P) + 1 ≤ n := by omega
        obtain ⟨ih1, ih2, ih3, ih4, ih5, ih6⟩ := ih (offset + P) s2 hn
        have hMP : src.length - (offset + P) = src.length - offset - P := by
          omega
        have hcount := ceil_count_step (src.length - offset) P (by omega) hP
        have hne : (migrateLoop src P tf save n s2 (offset + P)).fetches
            ≠ [] := by
          intro hnil
          rw [hnil] at ih1
          simp at ih1
        rw [hres]
        refine ⟨?_, ?_, ?_, ?_, ?_, ?_⟩
        · dsimp only
          rw [List.length_cons, ih1, hMP]
          exact hcount.symm
        · dsimp only
          rw [hcount, range_offset_step, List.map_cons, ih2, hMP]
        · dsimp only
          rw [getLast?_cons_of_ne_nil _ hne]
          exact ih3
        · dsimp only
          rw [ih4]
          have hsplit : List.drop (offset + P) src
              = List.drop P (List.drop offset src) := by
            rw [List.drop_drop]
          rw [hsplit]
          unfold fetchPage
          exact List.take_append_drop P (src.drop offset)
        · dsimp only
          rw [dropLast_cons_of_ne_nil _ hne]
          intro pr hpr
          rcases List.mem_cons.mp hpr with hpr | hpr
          · rw [hpr]
            intro hnil
            have hnil2 : fetchPage src offset P = [] := hnil
            rw [hnil2] at hpagelen
            simp at hpagelen
          · exact ih5 pr hpr
        · dsimp only
          exact ih6

/-- C6: migrating a source collection of size N with page size P performs
exactly N plus P minus one over P rounded down, plus one, fetch calls, that
is ceil of N over P plus one, at offsets zero, P, two P and so on; the last
fetched page is empty, every source record is visited exactly once, every
fetch before the last returns a non-empty page (so a short but non-empty
page does not terminate the loop, only the empty page does), and no
exception occurs.  The source fixes P to one hundred. -/
theorem migrate_model_pagination {R T σ : Type} (P : Nat) (src : List R)
    (tf : σ → R → Except PyErr (List T))
    (save : List T → σ → Except PyErr σ) (s : σ) (hP : 0 < P)
    (htf : ∀ s2 r, (tf s2 r).isOk = true)
    (hsave : ∀ ts s2, (save ts s2).isOk = true) :
    (migrate_modelWith P src tf save s).fetches.length
        = (src.length + P - 1) / P + 1 ∧
    (migrate_modelWith P src tf save s).fetches.map Prod.fst
        = (List.range ((src.length + P - 1) / P + 1)).map (fun i => i * P) ∧
    (migrate_modelWith P src tf save s).fetches.getLast?.map Prod.snd
        = some [] ∧
    (migrate_modelWith P src tf save s).visited = src ∧
    (∀ pr ∈ (migrate_modelWith P src tf save s).fetches.dropLast,
        pr.2 ≠ []) ∧
    (migrate_modelWith P src tf save s).caught = none := by
  obtain ⟨h1, h2, h3, h4, h5, h6⟩ := migrateLoop_pagination src P tf save hP
    htf hsave (src.length + 1) 0 s (by omega)
  rw [Nat.sub_zero] at h1 h2
  unfold migrate_modelWith
  refine ⟨h1, ?_, h3, ?_, h5, h6⟩
  · rw [h2]
    apply List.map_congr_left
    intro i _
    omega
  · rw [h4]
    simp

/-- C6 witness: three source records with page size one hundred produce two
fetch calls at offsets zero and one hundred, the second returning the empty
page, with all three records visited once. -/
theorem migrate_model_pagination_witness :
    (migrate_modelWith 100 [10, 20, 30]
        (fun (_ : Unit) (r : Nat) => .ok [r])
        (fun _ s2 => .ok s2) ()).fetches.length
        = (([10, 20, 30] : List Nat).length + 100 - 1) / 100 + 1 ∧
    (migrate_modelWith 100 [10, 20, 30]
        (fun (_ : Unit) (r : Nat) => .ok [r])
        (fun _ s2 => .ok s2) ()).fetches.map Prod.fst
        = (List.range ((([10, 20, 30] : List Nat).length + 100 - 1) / 100
            + 1)).map (fun i => i * 100) ∧
    (migrate_modelWith 100 [10, 20, 30]
        (fun (_ : Unit) (r : Nat) => .ok [r])
        (fun _ s2 => .ok s2) ()).fetches.getLast?.map Prod.snd = some [] ∧
    (migrate_modelWith 100 [10, 20, 30]
        (fun (_ : Unit) (r : Nat) => .ok [r])
        (fun _ s2 => .ok s2) ()).visited = [10, 20, 30] ∧
    (∀ pr ∈ (migrate_modelWith 100 [10, 20, 30]
        (fun (_ : Unit) (r : Nat) => .ok [r])
        (fun _ s2 => .ok s2) ()).fetches.dropLast, pr.2 ≠ []) ∧
    (migrate_modelWith 100 [10, 20, 30]
        (fun (_ : Unit) (r : Nat) => .ok [r])
        (fun _ s2 => .ok s2) ()).caught = none :=
  migrate_model_pagination 100 [10, 20, 30]
    (fun (_ : Unit) (r : Nat) => .ok [r]) (fun _ s2 => .ok s2) ()
    (by omega) (fun _ _ => rfl) (fun _ _ => rfl)
